import Mathlib

/-!
Verification of the design specification of the `xhtml2pdf` repository
(an XML + XSLT → XHTML → PDF conversion pipeline).

The repository's sole source file, `src/xhtml2pdf.py`, is embedded below
line by line, exactly as it appears on disk (double quotes are escaped as
Lean escapes, and ASCII apostrophes are written with the \x27 escape).
Inspection shows it contains prose only — shell installation instructions
and an investigation log — and no Python code, so the pipeline operations
named by the specification (transform, sanitize, resolve, inject, render,
orchestrate) are modelled from the specification text, each such
definition carrying a doc comment that says so.

Strings of the modelled program are represented as `List Char` (abbrev
`Str`), so that all operations are executable and all concrete facts are
decidable.
-/

namespace Xhtml2PdfSpec

/-! ## String machinery over `List Char` -/

/-- Markup, URIs, CSS text and PDF byte streams are modelled as lists of
characters, so that every operation is executable and decidable. -/
abbrev Str := List Char

/-- Test whether `pat` is a prefix of `s`. -/
def isPre : Str → Str → Bool
  | [], _ => true
  | _ :: _, [] => false
  | p :: ps, c :: cs => p = c && isPre ps cs

/-- Split `s` at the first occurrence of `pat`: returns `some (p, q)` with
`s = p ++ pat ++ q` when `pat` occurs in `s`, and `none` otherwise. -/
def splitFirst (pat : Str) : Str → Option (Str × Str)
  | [] => if isPre pat [] then some ([], []) else none
  | c :: s =>
    if isPre pat (c :: s) then some ([], List.drop pat.length (c :: s))
    else
      match splitFirst pat s with
      | some (p, q) => some (c :: p, q)
      | none => none

/-- `pat` occurs somewhere in `s`. -/
def hasSub (pat s : Str) : Bool := (splitFirst pat s).isSome

/-- Direct Boolean substring scan (equivalent to `hasSub`, but defined
without building the split, so concrete instances evaluate faster). -/
def containsSub (pat : Str) : Str → Bool
  | [] => isPre pat []
  | c :: s => isPre pat (c :: s) || containsSub pat s

/-- Number of positions of `s` at which `pat` starts (an occurrence must
lie entirely inside `s`). -/
def countSub (pat : Str) : Str → Nat
  | [] => 0
  | c :: s => (if isPre pat (c :: s) then 1 else 0) + countSub pat s

/-- Replace every occurrence of the character `c` in a string by the
replacement string `rep`. -/
def replaceChar (c : Char) (rep : Str) : Str → Str
  | [] => []
  | x :: xs => (if x = c then rep else [x]) ++ replaceChar c rep xs

theorem isPre_exists_append {pat t : Str} (h : isPre pat t = true) :
    ∃ r, t = pat ++ r := by
  induction pat generalizing t with
  | nil => exact ⟨t, rfl⟩
  | cons p ps ih =>
    cases t with
    | nil => simp [isPre] at h
    | cons c cs =>
      simp only [isPre, Bool.and_eq_true, decide_eq_true_eq] at h
      obtain ⟨rfl, h2⟩ := h
      obtain ⟨r, rfl⟩ := ih h2
      exact ⟨r, rfl⟩

theorem splitFirst_sound {pat s p q : Str}
    (h : splitFirst pat s = some (p, q)) : s = p ++ pat ++ q := by
  induction s generalizing p q with
  | nil =>
    simp only [splitFirst] at h
    by_cases hp : isPre pat [] = true
    · cases pat with
      | nil => simp_all
      | cons a as => simp [isPre] at hp
    · simp [hp] at h
  | cons c cs ih =>
    simp only [splitFirst] at h
    by_cases hp : isPre pat (c :: cs) = true
    · rw [if_pos hp] at h
      obtain ⟨r, hr⟩ := isPre_exists_append hp
      cases h
      simp only [List.nil_append, List.append_right_inj]
      rw [hr]
      simp
    · rw [if_neg hp] at h
      cases hsf : splitFirst pat cs with
      | none => rw [hsf] at h; cases h
      | some pq =>
        obtain ⟨p', q'⟩ := pq
        rw [hsf] at h
        cases h
        simp [ih hsf]

/-! ## The repository's sole source file, embedded verbatim

`sourceLines` is `src/xhtml2pdf.py` split at newlines. -/

def sourceLines : List String := [
  "Yep — that WeasyPrint error is not your code. It’s your Linux system library.",
  "What the error means",
  "You have this at the bottom:",
  "",
  "undefined symbol: pango_context_set_round_glyph_positions",
  "",
  "WeasyPrint calls a function that exists only in newer Pango.",
  "But your machine is loading an older /lib64/libpango-1.0.so.0, so the symbol isn’t there → crash.",
  "So the fix is: use a newer Pango (without changing XML/XSL).",
  "",
  "Best fix without sudo: install WeasyPrint + Pango via Conda (in your home directory)",
  "This avoids system packages completely and works on locked-down servers.",
  "Option A) Micromamba (smallest, no sudo)",
  "# 1) Download micromamba into your home dir",
  "curl -L https://micro.mamba.pm/api/micromamba/linux-64/latest -o micromamba.tar.bz2",
  "tar -xjf micromamba.tar.bz2",
  "mkdir -p ~/bin",
  "mv bin/micromamba ~/bin/",
  "export PATH=~/bin:$PATH",
  "",
  "# 2) Create env with weasyprint + correct native libs",
  "micromamba create -y -n wp -c conda-forge \\",
  "  python=3.10 weasyprint=52.5 pango cairo gdk-pixbuf libffi harfbuzz fontconfig",
  "",
  "micromamba activate wp",
  "",
  "# 3) Run your script",
  "python convert_weasy.py hcamockedccd.xml HealowStylesheet.xsl output.pdf",
  "",
  "If micromamba activate doesn’t work in your shell, do:",
  "eval \"$(~/bin/micromamba shell hook -s bash)\"",
  "micromamba activate wp",
  "",
  "Option B) Miniconda (bigger but common)",
  "Install Miniconda in ~/miniconda3, then:",
  "conda create -y -n wp -c conda-forge \\",
  "  python=3.10 weasyprint=52.5 pango cairo gdk-pixbuf libffi harfbuzz fontconfig",
  "conda activate wp",
  "python convert_weasy.py hcamockedccd.xml HealowStylesheet.xsl output.pdf",
  "",
  "",
  "Quick verify you’re not using the old system Pango",
  "After activating the env:",
  "python -c \"import weasyprint; print(\x27weasyprint ok\x27)\"",
  "python -c \"import ctypes.util; print(ctypes.util.find_library(\x27pango-1.0\x27))\"",
  "",
  "You want it to resolve to the conda env, not /lib64/....",
  "",
  "If you absolutely can’t use conda/micromamba",
  "Then WeasyPrint won’t run on that machine unless IT upgrades Pango.",
  "In that case, your realistic options are:",
  "",
  "",
  "Playwright/Chromium HTML→PDF (Chromium is bundled, usually no sudo needed)",
  "",
  "",
  "keep using xhtml2pdf with aggressive sanitization (but you already saw how brittle it is)",
  "",
  "",
  "",
  "If you tell me what OS this is (Amazon Linux 2? RHEL 7? CentOS 7?), I can tailor the exact micromamba commands and avoid any package mismatches.",
  "",
  "",
  "",
  "",
  "",
  "--------------------------------------------------------------------------------------------------------------------------------------------------------------------------------------------------------------------------------------------------",
  "# XML + XSL to PDF Conversion – Investigation Summary",
  "",
  "## Objective",
  "",
  "Convert **client-provided XML + XSL** into **PDF** using Python, **without modifying XML or XSL**.",
  "",
  "---",
  "",
  "## Initial Requirements & Constraints",
  "",
  "* XML and XSL are **owned by the client** → cannot change them",
  "* Solution must run in a **restricted Linux environment** (no sudo)",
  "* Prefer a **pure-Python pipeline** if possible",
  "",
  "---",
  "",
  "## Solution Paths Tried",
  "",
  "### 0. XML + XSL → XSL-FO → PDF using **Apache FOP**",
  "",
  "**Pipeline**",
  "",
  "```",
  "XML + XSL → XSL-FO → PDF (Apache FOP)",
  "```",
  "",
  "**Why This Was Tried**",
  "",
  "* Apache FOP is the *correct* engine when XSL produces **XSL-FO**",
  "* Very common in healthcare / clinical document pipelines",
  "* Stable, standards-based FO rendering",
  "",
  "**Outcome**",
  "",
  "* Java-based execution via Apache FOP was tested",
  "* PDF generation worked at a basic level",
  "",
  "**Issues Encountered**",
  "",
  "* Requires **Java runtime** and FOP binaries",
  "* Harder to embed cleanly into an existing Python-only pipeline",
  "* Operational overhead (managing Java, FOP configs, fonts)",
  "* Environment constraints made long-term maintenance undesirable",
  "",
  "**Conclusion**",
  "⚠️ Technically correct for FO, but **operationally heavy** for this setup",
  "",
  "---",
  "",
  "### 1. XML + XSL → XHTML → PDF using **xhtml2pdf**",
  "",
  "**Pipeline**",
  "",
  "```",
  "XML + XSL (lxml) → XHTML → PDF (xhtml2pdf)",
  "```",
  "",
  "**Outcome**",
  "",
  "* XHTML generation via `lxml` works correctly",
  "* PDF generation **fails repeatedly** due to CSS parsing errors",
  "",
  "**Errors Observed**",
  "",
  "* `NotImplementedType object is not iterable`",
  "* `Invalid color value \x27collapse\x27`",
  "* `invalid literal for int() with base 10: \x27100%\x27`",
  "",
  "**Root Cause**",
  "",
  "* `xhtml2pdf` has **very limited and buggy CSS support**",
  "* Client XSL emits modern / complex CSS such as:",
  "",
  "  * `@page` rules",
  "  * `border-collapse: collapse`",
  "  * percentage-based widths (`width: 100%`)",
  "",
  "**Mitigations Attempted**",
  "",
  "* Python-side XHTML/CSS sanitization:",
  "",
  "  * strip `@page`, `@font-face`, `@media`",
  "  * remove `border-collapse`, `%` widths, `position: fixed`",
  "* Aggressive fallback: remove **all CSS**",
  "",
  "**Result**",
  "",
  "* Even with heavy sanitization, `xhtml2pdf` remains **unstable and brittle**",
  "* Usable PDF generation is **not reliable**",
  "",
  "**Conclusion**",
  "❌ `xhtml2pdf` is **not suitable** for this stylesheet",
  "",
  "---",
  "",
  "### 2. XML + XSL → XHTML → PDF using **WeasyPrint 52.5**",
  "",
  "**Pipeline**",
  "",
  "```",
  "XML + XSL (lxml) → XHTML → PDF (WeasyPrint)",
  "```",
  "",
  "**Why WeasyPrint**",
  "",
  "* Modern CSS support",
  "* Proper handling of `@page`, tables, percentages",
  "* Much closer to browser-quality rendering",
  "",
  "**Outcome**",
  "",
  "* Python code is correct",
  "* Fails at runtime with native library error",
  "",
  "**Error Observed**",
  "",
  "```",
  "undefined symbol: pango_context_set_round_glyph_positions",
  "```",
  "",
  "**Root Cause**",
  "",
  "* System has **old Pango (libpango-1.0.so.0)**",
  "* WeasyPrint 52.5 requires **newer Pango**",
  "* Cannot upgrade system libraries without sudo",
  "",
  "**Proposed Fix (Not Yet Applied)**",
  "",
  "* Install WeasyPrint + Pango via **micromamba / conda** in user space",
  "* This avoids system libraries entirely",
  "",
  "**Status**",
  "⚠️ Blocked pending approval / ability to use micromamba or conda",
  "",
  "---",
  "",
  "### 3. Chromium / Playwright (Discussed, Not Implemented)",
  "",
  "**Pipeline**",
  "",
  "```",
  "XML + XSL → XHTML → PDF (Headless Chromium)",
  "```",
  "",
  "**Pros**",
  "",
  "* Full HTML/CSS support",
  "* No dependency on Pango",
  "* Very high rendering fidelity",
  "",
  "**Cons**",
  "",
  "* Requires Node.js + Chromium runtime",
  "* Heavier than Python-only solutions",
  "",
  "**Status**",
  "🟡 Considered as a fallback option",
  "",
  "---",
  "",
  "## Current Status (Where We Are Stuck)",
  "",
  "* ❌ `xhtml2pdf` cannot reliably handle the client’s XHTML/CSS",
  "* ⚠️ WeasyPrint code works but is blocked by **outdated system Pango**",
  "* 🔒 Cannot change XML, XSL, or system libraries",
  "",
  "---",
  "",
  "## Recommended Next Steps",
  "",
  "### Preferred (Cleanest)",
  "",
  "✅ Use **micromamba / conda** to run WeasyPrint 52.5 with bundled native libs",
  "",
  "### Acceptable Alternative",
  "",
  "✅ Use **Playwright / Chromium** for HTML → PDF",
  "",
  "### Not Recommended",
  "",
  "❌ Further investment in `xhtml2pdf`",
  "",
  "---",
  "",
  "## Final Recommendation",
  "",
  "For long-term stability and correctness **without touching client XSL**:",
  "",
  "> **WeasyPrint (via micromamba/conda) or Chromium-based PDF rendering is required.**",
  "",
  "Anything else will remain fragile and high-maintenance.",
  ""
  ]

/-! ## Claim C1: the source file defines no code -/

/-- A Python function, class or lambda definition would contain one of
these substrings somewhere on a line. -/
def pythonDefMarkers : List String := ["def ", "class ", "lambda"]

/-- The operations named by the specification's pipeline. -/
def specOperationNames : List String :=
  ["transform", "sanitize", "resolve", "inject", "render", "orchestrate"]

/-- A line of the source file introduces a Python definition of `sym` if
it contains `def sym` or `class sym`. -/
def lineDefines (sym : String) (line : String) : Bool :=
  containsSub (("def " ++ sym).data) line.data ||
    containsSub (("class " ++ sym).data) line.data

/-- The embedded file contains a Python definition of `sym` on some line. -/
def fileDefines (sym : String) : Bool := sourceLines.any (lineDefines sym)

set_option maxRecDepth 100000

set_option maxHeartbeats 4000000

/-- Claim C1: the repository's sole source file contains no executable
program. No line of `src/xhtml2pdf.py` contains a Python function, class
or lambda definition marker, and in particular none of the specified
pipeline operations (transform, sanitize, resolve, inject, render,
orchestrate) is defined anywhere in the file: the file is prose only. -/
theorem c1_source_file_contains_no_code :
    (pythonDefMarkers.all
        (fun m => sourceLines.all (fun l => !(containsSub m.data l.data)))) = true ∧
    (specOperationNames.all (fun op => !(fileDefines op))) = true := by
  constructor <;> decide

/-! ## Claim C2: the Resource Resolver -/

def fileScheme : Str := ("file://").data

def schemeSep : Str := ("://").data

def slash : Str := ("/").data

/-- Modelled from the spec: the repository's source file is prose only, so
the Resource Resolver (`resolve(uri, base_dir)`, spec section 4.3) is
modelled from the specification's rules, applied in order: (1) a
`file://`-scheme URI has the scheme prefix stripped to a bare path; (2) a
URI with a scheme (detected as the `://` separator, matching the spec's
examples `http://`, `https://`) is returned unchanged; (3) otherwise the
URI is resolved relative to `base_dir` to an absolute path, returned when
it exists on disk, with the original URI returned unchanged otherwise.
The filesystem is passed explicitly as the list `fs` of paths that exist
on disk, so the existence check is `fs.contains`. -/
def resolve (fs : List Str) (uri base_dir : Str) : Str :=
  if isPre fileScheme uri then uri.drop fileScheme.length
  else if containsSub schemeSep uri then uri
  else
    let abs := base_dir ++ slash ++ uri
    if fs.contains abs then abs else uri

/-- Claim C2: `resolve` applies its rules in order: a `file://` URI has
the scheme prefix stripped; a URI with a scheme is returned unchanged; a
relative URI is resolved against `base_dir`, the absolute path being
returned when it exists on disk and the original URI unchanged when it
does not. -/
theorem c2_resolve_rules (fs : List Str) (uri base_dir : Str) :
    (isPre fileScheme uri = true →
      resolve fs uri base_dir = uri.drop fileScheme.length) ∧
    (isPre fileScheme uri = false → containsSub schemeSep uri = true →
      resolve fs uri base_dir = uri) ∧
    (isPre fileScheme uri = false → containsSub schemeSep uri = false →
      (fs.contains (base_dir ++ slash ++ uri) = true →
        resolve fs uri base_dir = base_dir ++ slash ++ uri) ∧
      (fs.contains (base_dir ++ slash ++ uri) = false →
        resolve fs uri base_dir = uri)) := by
  refine ⟨fun h1 => ?_, fun h1 h2 => ?_, fun h1 h2 => ⟨fun h3 => ?_, fun h3 => ?_⟩⟩
  · simp [resolve, h1]
  · simp [resolve, h1, h2]
  · simp only [resolve, h1, h2, Bool.false_eq_true, if_false, h3, if_true]
  · simp only [resolve, h1, h2, Bool.false_eq_true, if_false, h3]

def exampleBase : Str := ("/base").data

def exampleDisk : List Str := [("/base/img/a.png").data]

/-- Concrete instance of Claim C2, the spec's own examples: with
`/base/img/a.png` on disk, `resolve("img/a.png", "/base")` returns the
absolute path, `resolve("http://x/a.png", "/base")` returns the URI
unchanged, and `resolve("missing.png", "/base")` returns it unchanged. -/
theorem c2_resolve_rules_witness :
    resolve exampleDisk (("img/a.png").data) exampleBase
        = exampleBase ++ slash ++ ("img/a.png").data ∧
    resolve exampleDisk (("http://x/a.png").data) exampleBase
        = ("http://x/a.png").data ∧
    resolve exampleDisk (("missing.png").data) exampleBase
        = ("missing.png").data := by
  refine ⟨?_, ?_, ?_⟩
  · exact ((c2_resolve_rules exampleDisk (("img/a.png").data) exampleBase).2.2
      (by decide) (by decide)).1 (by decide)
  · exact (c2_resolve_rules exampleDisk (("http://x/a.png").data) exampleBase).2.1
      (by decide) (by decide)
  · exact ((c2_resolve_rules exampleDisk (("missing.png").data) exampleBase).2.2
      (by decide) (by decide)).2 (by decide)

/-! ## Claim C7: decoration-text escaping -/

def ampEnt : Str := ("&amp;").data

def ltEnt : Str := ("&lt;").data

def gtEnt : Str := ("&gt;").data

def quotEnt : Str := ("&quot;").data

/-- Modelled from the spec: the repository's source file is prose only, so
the decoration-text escaping (spec section 6) is modelled from the
specification's rule: replace `&`, `<`, `>`, `"` in that order, the
ampersand substitution applied first (innermost). -/
def escapeText (s : Str) : Str :=
  replaceChar '"' quotEnt
    (replaceChar '>' gtEnt (replaceChar '<' ltEnt (replaceChar '&' ampEnt s)))

/-- Escaping a single character: its entity for the four special
characters, the character itself otherwise. -/
def escapeChar (c : Char) : Str :=
  if c = '&' then ampEnt
  else if c = '<' then ltEnt
  else if c = '>' then gtEnt
  else if c = '"' then quotEnt
  else [c]

/-- Reference escaping that escapes each input character independently,
so that no entity introduced by the escaping is itself re-escaped. -/
def escapeSpec : Str → Str
  | [] => []
  | c :: cs => escapeChar c ++ escapeSpec cs

theorem replaceChar_append (c : Char) (rep a b : Str) :
    replaceChar c rep (a ++ b) = replaceChar c rep a ++ replaceChar c rep b := by
  induction a with
  | nil => rfl
  | cons x xs ih => simp [replaceChar, ih, List.append_assoc]

theorem escapeText_head (x : Char) :
    replaceChar '"' quotEnt (replaceChar '>' gtEnt (replaceChar '<' ltEnt
      (if x = '&' then ampEnt else [x]))) = escapeChar x := by
  by_cases h1 : x = '&'
  · subst h1; decide
  · by_cases h2 : x = '<'
    · subst h2; decide
    · by_cases h3 : x = '>'
      · subst h3; decide
      · by_cases h4 : x = '"'
        · subst h4; decide
        · simp [escapeChar, replaceChar, h1, h2, h3, h4]

theorem escapeText_cons (x : Char) (xs : Str) :
    escapeText (x :: xs) = escapeChar x ++ escapeText xs := by
  show replaceChar '"' quotEnt (replaceChar '>' gtEnt (replaceChar '<' ltEnt
      (replaceChar '&' ampEnt (x :: xs)))) = _
  rw [show replaceChar '&' ampEnt (x :: xs)
        = (if x = '&' then ampEnt else [x]) ++ replaceChar '&' ampEnt xs from rfl,
    replaceChar_append, replaceChar_append, replaceChar_append, escapeText_head]
  rfl

/-- Claim C7: the ordered sequential replacement of `&`, `<`, `>`, `"`
(ampersand first) escapes every input character independently: it agrees
with per-character escaping, so the entities introduced by the later
substitutions are never double-escaped. -/
theorem c7_escape_amp_first_no_double_escape (s : Str) :
    escapeText s = escapeSpec s := by
  induction s with
  | nil => rfl
  | cons x xs ih => rw [escapeText_cons, ih]; rfl

/-! ## Claim C5: the Decoration Injector -/

def headCloseTag : Str := ("</head>").data

def bodyOpenTag : Str := ("<body").data

def htmlTag : Str := ("<html").data

def gtStr : Str := (">").data

def shellPre : Str :=
  ("<!DOCTYPE html><html><head><meta charset=\"utf-8\"/></head><body>").data

def shellPost : Str := ("</body></html>").data

/-- Modelled from the spec: the repository's source file is prose only, so
the Decoration Injector (`inject(markup, decoration_fragment)`, spec
section 4.4) is modelled from the specification's placement rules, in
priority order: insert immediately before a head-closing marker if one
exists; else immediately after the closing angle bracket of a
body-opening tag if one exists; else prepend the fragment and, when the
markup has no root HTML element (the spec's heuristic: no `<html` tag),
wrap the result in a minimal document shell (doctype, html, head with
charset meta, body). A body-opening tag with no closing angle bracket is
malformed, so the prepend rule applies to it. -/
def inject (markup fragment : Str) : Str :=
  match splitFirst headCloseTag markup with
  | some (p, q) => p ++ fragment ++ headCloseTag ++ q
  | none =>
    match splitFirst bodyOpenTag markup with
    | some (p, q) =>
      match splitFirst gtStr q with
      | some (a, r) => p ++ bodyOpenTag ++ a ++ gtStr ++ fragment ++ r
      | none =>
        if hasSub htmlTag markup then fragment ++ markup
        else shellPre ++ fragment ++ markup ++ shellPost
    | none =>
      if hasSub htmlTag markup then fragment ++ markup
      else shellPre ++ fragment ++ markup ++ shellPost

theorem countSub_htmlTag_shellPre (r : Str) :
    countSub htmlTag (shellPre ++ r) = 1 + countSub htmlTag r := by
  simp [shellPre, htmlTag, countSub, isPre]

/-- Claim C5 counterexample: on the markup `</head>` with fragment `x`,
`inject` places the fragment before the head-closing marker, yielding
`x</head>`, which contains no root HTML element at all. This refutes the
claim's final guarantee that the output is always a complete HTML
document with a single root HTML element. -/
theorem c5_counterexample_no_root_html :
    inject (("</head>").data) (("x").data) = ("x</head>").data ∧
    countSub htmlTag (inject (("</head>").data) (("x").data)) = 0 := by
  constructor <;> decide

/-- Claim C5 (amended): `inject` always inserts the fragment exactly once,
choosing the placement by priority: immediately before the head-closing
marker when one exists; else immediately after the closing angle bracket
of a body-opening tag when one exists; else prepended before the entire
markup, the whole result being wrapped in the minimal HTML document shell
when no root HTML element is present. In the wrap case the output is a
complete HTML document with a single root HTML element (the insertion
cases preserve the surrounding markup unchanged, so there the output has
a root HTML element exactly when the input does). -/
theorem c5_inject_placement (markup fragment : Str) :
    (∀ p q, splitFirst headCloseTag markup = some (p, q) →
      inject markup fragment = p ++ fragment ++ headCloseTag ++ q ∧
      markup = p ++ headCloseTag ++ q) ∧
    (splitFirst headCloseTag markup = none →
      ∀ p q a r, splitFirst bodyOpenTag markup = some (p, q) →
        splitFirst gtStr q = some (a, r) →
        inject markup fragment = p ++ bodyOpenTag ++ a ++ gtStr ++ fragment ++ r ∧
        markup = p ++ bodyOpenTag ++ a ++ gtStr ++ r) ∧
    (splitFirst headCloseTag markup = none →
      splitFirst bodyOpenTag markup = none →
      (hasSub htmlTag markup = true → inject markup fragment = fragment ++ markup) ∧
      (hasSub htmlTag markup = false →
        inject markup fragment = shellPre ++ fragment ++ markup ++ shellPost)) ∧
    (splitFirst headCloseTag markup = none →
      splitFirst bodyOpenTag markup = none →
      hasSub htmlTag markup = false →
      countSub htmlTag (fragment ++ markup ++ shellPost) = 0 →
      countSub htmlTag (inject markup fragment) = 1) := by
  refine ⟨?_, ?_, ?_, ?_⟩
  · intro p q h
    exact ⟨by simp [inject, h], splitFirst_sound h⟩
  · intro h0 p q a r h1 h2
    constructor
    · simp [inject, h0, h1, h2]
    · have e1 := splitFirst_sound h1
      have e2 := splitFirst_sound h2
      rw [e1, e2]
      simp [List.append_assoc]
  · intro h0 h1
    constructor
    · intro hh; simp [inject, h0, h1, hh]
    · intro hh; simp [inject, h0, h1, hh]
  · intro h0 h1 hh hc
    have hstep : inject markup fragment
        = shellPre ++ (fragment ++ markup ++ shellPost) := by
      simp [inject, h0, h1, hh, List.append_assoc]
    rw [hstep, countSub_htmlTag_shellPre, hc]

/-- Concrete instance of Claim C5: on `<head></head>` the fragment is
placed strictly before the head-closing marker, and on the fragment-only
markup `p` the wrapped output contains exactly one root HTML element. -/
theorem c5_inject_placement_witness :
    (inject (("<head></head>").data) (("F").data)
        = ("<head>").data ++ ("F").data ++ headCloseTag ++ [] ∧
      ("<head></head>").data = ("<head>").data ++ headCloseTag ++ []) ∧
    countSub htmlTag (inject (("p").data) (("F").data)) = 1 :=
  ⟨(c5_inject_placement (("<head></head>").data) (("F").data)).1
      (("<head>").data) [] (by decide),
    (c5_inject_placement (("p").data) (("F").data)).2.2.2
      (by decide) (by decide) (by decide) (by decide)⟩

/-! ## Claims C3 and C4: the Markup Sanitizer -/

/-- The sanitization policies of the spec's data model (section 3). -/
inductive SanitizationPolicy where
  | none
  | targetedStrip
  | dropAllStyling

/-- A top-level item of a style block's CSS text: either a block
at-rule with its name and raw text, or any other run of declarations
with its raw text. -/
inductive CssItem where
  | atRule (name : String) (raw : Str)
  | decl (raw : Str)

/-- The raw text of a CSS item. -/
def rawOf : CssItem → Str
  | CssItem.atRule _ raw => raw
  | CssItem.decl raw => raw

/-- The at-rule names stripped by targeted sanitization (spec 4.2). -/
def strippedAtRuleNames : List String :=
  ["page", "font-face", "media", "supports", "keyframes"]

/-- A CSS item matches targeted stripping when it is an at-rule named
page, font-face, media, supports or keyframes. -/
def cssMatches : CssItem → Bool
  | CssItem.atRule n _ => strippedAtRuleNames.contains n
  | CssItem.decl _ => false

/-- Modelled from the spec: the repository's source file is prose only, so
the at-rule stripper is modelled at the level of top-level CSS items (the
spec's brace-balancing matcher delimits exactly these items, one level of
nesting being inside an item's raw text): it removes every matching
at-rule item and keeps all other items untouched. -/
def stripAtRules (items : List CssItem) : List CssItem :=
  items.filter (fun i => !(cssMatches i))

/-- An XHTML tree node: text, a style block holding CSS items, a link
element with its rel attribute and href, or any other element with its
children. -/
inductive Node where
  | text (s : Str)
  | style (css : List CssItem)
  | link (rel : String) (href : Str)
  | elem (tag : String) (children : List Node)

/-- Modelled from the spec: the repository's source file is prose only, so
the Markup Sanitizer (`sanitize(markup, policy)`, spec section 4.2) is
modelled from the specification: under DropAllStyling every style block
is removed outright; under TargetedStrip style block text is rewritten in
place by the at-rule stripper; external stylesheet link elements are
always removed regardless of policy; body content text is never touched;
removing an element removes the node entirely. -/
def sanitizeList (p : SanitizationPolicy) : List Node → List Node
  | [] => []
  | Node.text s :: rest => Node.text s :: sanitizeList p rest
  | Node.style css :: rest =>
    (match p with
      | SanitizationPolicy.none => [Node.style css]
      | SanitizationPolicy.targetedStrip => [Node.style (stripAtRules css)]
      | SanitizationPolicy.dropAllStyling => []) ++ sanitizeList p rest
  | Node.link rel href :: rest =>
    (if rel = "stylesheet" then [] else [Node.link rel href]) ++ sanitizeList p rest
  | Node.elem tag cs :: rest => Node.elem tag (sanitizeList p cs) :: sanitizeList p rest

/-- Number of style-block elements anywhere in a tree. -/
def countStyles : List Node → Nat
  | [] => 0
  | Node.style _ :: rest => 1 + countStyles rest
  | Node.elem _ cs :: rest => countStyles cs + countStyles rest
  | _ :: rest => countStyles rest

/-- Number of external stylesheet link elements anywhere in a tree. -/
def countSheetLinks : List Node → Nat
  | [] => 0
  | Node.link rel _ :: rest =>
    (if rel = "stylesheet" then 1 else 0) + countSheetLinks rest
  | Node.elem _ cs :: rest => countSheetLinks cs + countSheetLinks rest
  | _ :: rest => countSheetLinks rest

/-- Number of matching (page/font-face/media/supports/keyframes) at-rule
occurrences inside style blocks anywhere in a tree. -/
def countStrippedAtRules : List Node → Nat
  | [] => 0
  | Node.style css :: rest =>
    (css.filter cssMatches).length + countStrippedAtRules rest
  | Node.elem _ cs :: rest => countStrippedAtRules cs + countStrippedAtRules rest
  | _ :: rest => countStrippedAtRules rest

/-- The raw texts of all non-matching CSS items inside style blocks
anywhere in a tree, in document order. -/
def keptCssRaws : List Node → List Str
  | [] => []
  | Node.style css :: rest =>
    (css.filter (fun i => !(cssMatches i))).map rawOf ++ keptCssRaws rest
  | Node.elem _ cs :: rest => keptCssRaws cs ++ keptCssRaws rest
  | _ :: rest => keptCssRaws rest

theorem nodeListInduction (motive : List Node → Prop)
    (hnil : motive [])
    (htext : ∀ s rest, motive rest → motive (Node.text s :: rest))
    (hstyle : ∀ css rest, motive rest → motive (Node.style css :: rest))
    (hlink : ∀ rel href rest, motive rest → motive (Node.link rel href :: rest))
    (helem : ∀ tag cs rest, motive cs → motive rest →
      motive (Node.elem tag cs :: rest)) :
    ∀ nodes, motive nodes :=
  sanitizeList.induct SanitizationPolicy.none motive hnil htext hstyle hlink helem

theorem countStyles_sanitize_dropAll (nodes : List Node) :
    countStyles (sanitizeList SanitizationPolicy.dropAllStyling nodes) = 0 := by
  induction nodes using nodeListInduction with
  | hnil => simp [sanitizeList, countStyles]
  | htext s rest ih => simpa [sanitizeList, countStyles] using ih
  | hstyle css rest ih => simpa [sanitizeList, countStyles] using ih
  | hlink rel href rest ih =>
    by_cases h : rel = "stylesheet" <;> simp [sanitizeList, countStyles, h, ih]
  | helem tag cs rest ih1 ih2 => simp [sanitizeList, countStyles, ih1, ih2]

theorem countSheetLinks_sanitize (p : SanitizationPolicy) (nodes : List Node) :
    countSheetLinks (sanitizeList p nodes) = 0 := by
  induction nodes using nodeListInduction with
  | hnil => simp [sanitizeList, countSheetLinks]
  | htext s rest ih => simpa [sanitizeList, countSheetLinks] using ih
  | hstyle css rest ih =>
    cases p <;> simpa [sanitizeList, countSheetLinks] using ih
  | hlink rel href rest ih =>
    by_cases h : rel = "stylesheet" <;> simp [sanitizeList, countSheetLinks, h, ih]
  | helem tag cs rest ih1 ih2 => simp [sanitizeList, countSheetLinks, ih1, ih2]

/-- Claim C3: sanitizing under DropAllStyling leaves zero style-block
elements and zero external stylesheet link elements in the output tree. -/
theorem c3_drop_all_styling_removes_styles (nodes : List Node) :
    countStyles (sanitizeList SanitizationPolicy.dropAllStyling nodes) = 0 ∧
    countSheetLinks (sanitizeList SanitizationPolicy.dropAllStyling nodes) = 0 :=
  ⟨countStyles_sanitize_dropAll nodes,
    countSheetLinks_sanitize SanitizationPolicy.dropAllStyling nodes⟩

theorem countStrippedAtRules_sanitize_targeted (nodes : List Node) :
    countStrippedAtRules (sanitizeList SanitizationPolicy.targetedStrip nodes) = 0 := by
  induction nodes using nodeListInduction with
  | hnil => simp [sanitizeList, countStrippedAtRules]
  | htext s rest ih => simpa [sanitizeList, countStrippedAtRules] using ih
  | hstyle css rest ih =>
    simpa [sanitizeList, countStrippedAtRules, stripAtRules, List.filter_filter] using ih
  | hlink rel href rest ih =>
    by_cases h : rel = "stylesheet" <;>
      simp [sanitizeList, countStrippedAtRules, h, ih]
  | helem tag cs rest ih1 ih2 =>
    simp [sanitizeList, countStrippedAtRules, ih1, ih2]

theorem keptCssRaws_sanitize_targeted (nodes : List Node) :
    keptCssRaws (sanitizeList SanitizationPolicy.targetedStrip nodes)
      = keptCssRaws nodes := by
  induction nodes using nodeListInduction with
  | hnil => simp [sanitizeList, keptCssRaws]
  | htext s rest ih => simpa [sanitizeList, keptCssRaws] using ih
  | hstyle css rest ih =>
    simpa [sanitizeList, keptCssRaws, stripAtRules, List.filter_filter] using ih
  | hlink rel href rest ih =>
    by_cases h : rel = "stylesheet" <;> simp [sanitizeList, keptCssRaws, h, ih]
  | helem tag cs rest ih1 ih2 => simp [sanitizeList, keptCssRaws, ih1, ih2]

/-- Claim C4: sanitizing under TargetedStrip removes every occurrence of
a page, font-face, media, supports or keyframes at-rule from style-block
contents, leaves the raw text of every non-matching declaration item
byte-identical (in document order), and external stylesheet link elements
are removed under every policy. -/
theorem c4_targeted_strip_at_rules (nodes : List Node) :
    countStrippedAtRules (sanitizeList SanitizationPolicy.targetedStrip nodes) = 0 ∧
    keptCssRaws (sanitizeList SanitizationPolicy.targetedStrip nodes)
      = keptCssRaws nodes ∧
    (∀ p, countSheetLinks (sanitizeList p nodes) = 0) :=
  ⟨countStrippedAtRules_sanitize_targeted nodes,
    keptCssRaws_sanitize_targeted nodes,
    fun p => countSheetLinks_sanitize p nodes⟩

/-! ## Claim C6: the Pipeline Orchestrator's fallback ladder -/

/-- The recoverable error taxonomy of the ladder (spec section 7). -/
inductive PipelineError where
  | renderError (message : Str)
  | markupParseError (message : Str)

/-- Outcome of a full orchestrator run. -/
inductive OrchestratorResult where
  | done (pdf : Str)
  | failed (lastError : PipelineError)

/-- Modelled from the spec: the repository's source file is prose only, so
the Pipeline Orchestrator (spec section 4.6) is modelled from the
specification's transition rule. `runLadder san rend markup tiers e n`
tries the tiers in order, always sanitizing the original untouched
`markup` (tiers are independent rewrites, never cumulative); on a
sanitizer MarkupParseError it advances to the next tier without a render
attempt; on a RenderError it advances to the next tier, counting the
attempt; on success it stops with `done`, not attempting remaining
tiers; on exhaustion it fails with the last tier's error. `n` counts the
render attempts made so far and `e` is the last error seen. -/
def runLadder (san : SanitizationPolicy → Str → Except PipelineError Str)
    (rend : Str → Except PipelineError Str) (markup : Str) :
    List SanitizationPolicy → PipelineError → Nat → OrchestratorResult × Nat
  | [], e, n => (OrchestratorResult.failed e, n)
  | t :: rest, _, n =>
    match san t markup with
    | Except.error e => runLadder san rend markup rest e n
    | Except.ok m =>
      match rend m with
      | Except.ok pdf => (OrchestratorResult.done pdf, n + 1)
      | Except.error e => runLadder san rend markup rest e (n + 1)

/-- Modelled from the spec: a full orchestrator run over the tier ladder,
starting with no render attempts. -/
def orchestrate (san : SanitizationPolicy → Str → Except PipelineError Str)
    (rend : Str → Except PipelineError Str) (markup : Str)
    (tiers : List SanitizationPolicy) : OrchestratorResult × Nat :=
  runLadder san rend markup tiers (PipelineError.renderError []) 0

/-- Claim C6: on an error at tier `t` the orchestrator advances to the
next tier and retries the full sanitize-then-render cycle from the same
original markup (visible in the statement: the recursive run takes the
untouched `markup`); a sanitizer failure advances without a render
attempt, a renderer failure advances counting one attempt; on success at
a tier it stops without attempting the remaining tiers; and a renderer
that fails at the first tier and succeeds at the second yields `done`
with exactly two render attempts. -/
theorem c6_fallback_ladder
    (san : SanitizationPolicy → Str → Except PipelineError Str)
    (rend : Str → Except PipelineError Str) (markup : Str)
    (t : SanitizationPolicy) (rest : List SanitizationPolicy)
    (e0 : PipelineError) (n : Nat) :
    (∀ e, san t markup = Except.error e →
      runLadder san rend markup (t :: rest) e0 n
        = runLadder san rend markup rest e n) ∧
    (∀ m e, san t markup = Except.ok m → rend m = Except.error e →
      runLadder san rend markup (t :: rest) e0 n
        = runLadder san rend markup rest e (n + 1)) ∧
    (∀ m pdf, san t markup = Except.ok m → rend m = Except.ok pdf →
      runLadder san rend markup (t :: rest) e0 n
        = (OrchestratorResult.done pdf, n + 1)) ∧
    (∀ t2 m1 m2 e pdf, san t markup = Except.ok m1 →
      rend m1 = Except.error e → san t2 markup = Except.ok m2 →
      rend m2 = Except.ok pdf →
      orchestrate san rend markup [t, t2] = (OrchestratorResult.done pdf, 2)) := by
  refine ⟨?_, ?_, ?_, ?_⟩
  · intro e h; simp [runLadder, h]
  · intro m e h1 h2; simp [runLadder, h1, h2]
  · intro m pdf h1 h2; simp [runLadder, h1, h2]
  · intro t2 m1 m2 e pdf h1 h2 h3 h4
    simp [orchestrate, runLadder, h1, h2, h3, h4]

/-- A demonstration sanitizer: it tags the markup with the tier that
produced it, so the renderer below can distinguish tiers. -/
def demoSan : SanitizationPolicy → Str → Except PipelineError Str := fun p m =>
  match p with
  | SanitizationPolicy.none => Except.ok m
  | SanitizationPolicy.targetedStrip => Except.ok ('t' :: m)
  | SanitizationPolicy.dropAllStyling => Except.ok ('d' :: m)

/-- A demonstration renderer that always fails at tier 1 (targeted strip)
and succeeds at tier 2 (drop all styling). -/
def demoRend : Str → Except PipelineError Str := fun m =>
  match m with
  | 'd' :: rest => Except.ok rest
  | other => Except.error (PipelineError.renderError other)

/-- Concrete instance of Claim C6, the spec's own scenario: a renderer
that always fails at tier 1 and succeeds at tier 2 yields `done` with
exactly two render attempts. -/
theorem c6_fallback_ladder_witness :
    orchestrate demoSan demoRend (("x").data)
      [SanitizationPolicy.targetedStrip, SanitizationPolicy.dropAllStyling]
      = (OrchestratorResult.done (("x").data), 2) :=
  (c6_fallback_ladder demoSan demoRend (("x").data)
      SanitizationPolicy.targetedStrip [SanitizationPolicy.dropAllStyling]
      (PipelineError.renderError []) 0).2.2.2
    SanitizationPolicy.dropAllStyling ('t' :: ("x").data) ('d' :: ("x").data)
    (PipelineError.renderError ('t' :: ("x").data)) (("x").data)
    rfl rfl rfl rfl

/-! ## Claim C8: the Transformer is deterministic -/

/-- Ambient process state a transformer run could in principle observe:
filesystem contents (external entities) and network resources. -/
structure AmbientEnv where
  filesystem : List (Str × Str)
  network : List (Str × Str)

/-- Modelled from the spec: the repository's source file is prose only, so
the Transformer (`transform(xml, xslt, params)`, spec section 4.1) is
modelled from the specification: it has no internal state and is a pure
function of (xml, xslt, params); the XSLT engine's transformation
semantics is a spec non-goal (delegated to an XML-transform library), so
the engine is a parameter; external-entity resolution and network access
are disabled, so the ambient environment is never consulted. -/
def transform (engine : Str → Str → List (String × String) → Except Str Str)
    (xml xslt : Str) (params : List (String × String)) (_env : AmbientEnv) :
    Except Str Str :=
  engine xml xslt params

/-- Claim C8: `transform` is deterministic: two runs on identical
(xml, xslt, params) inputs yield byte-identical markup, even when the
ambient filesystem and network state differ between the runs. -/
theorem c8_transform_deterministic
    (engine : Str → Str → List (String × String) → Except Str Str)
    (xml xslt : Str) (params : List (String × String))
    (env1 env2 : AmbientEnv) :
    transform engine xml xslt params env1 = transform engine xml xslt params env2 :=
  rfl

/-! ## Claim C9: the pipeline never writes to its inputs -/

/-- The pipeline's data model (spec section 3): the immutable
SourceDocument and Stylesheet buffers, and the RenderedMarkup buffers
produced so far (newest last). -/
structure PipelineState where
  source : Str
  stylesheet : Str
  markups : List Str

/-- The markup buffer the next stage operates on. -/
def currentMarkup (s : PipelineState) : Str := (s.markups.getLast?).getD []

/-- Modelled from the spec: a sanitize stage is pure (spec section 3): it
reads the current markup buffer, applies the CSS rewrite, and returns a
new RenderedMarkup buffer, leaving every existing buffer and the
SourceDocument and Stylesheet untouched. -/
def sanitizeStage (cssRewrite : Str → Str) (s : PipelineState) : PipelineState :=
  PipelineState.mk s.source s.stylesheet
    (s.markups ++ [cssRewrite (currentMarkup s)])

/-- Modelled from the spec: the decorate stage injects the decoration
fragment into the current markup, producing a new RenderedMarkup buffer
(spec sections 3 and 4.4). -/
def decorateStage (fragment : Str) (s : PipelineState) : PipelineState :=
  PipelineState.mk s.source s.stylesheet
    (s.markups ++ [inject (currentMarkup s) fragment])

/-- Modelled from the spec: the transform stage reads SourceDocument and
Stylesheet and appends the produced markup as the first RenderedMarkup
buffer (spec sections 3 and 4.1). -/
def transformStage (engine : Str → Str → Str) (s : PipelineState) : PipelineState :=
  PipelineState.mk s.source s.stylesheet
    (s.markups ++ [engine s.source s.stylesheet])

/-- Claim C9: no pipeline stage writes to the SourceDocument or the
Stylesheet, and the sanitize and decorate stages are pure: every existing
markup buffer is left unchanged (the old buffer list is a prefix of the
new one) and a single new RenderedMarkup buffer is appended. -/
theorem c9_pipeline_frame (cssRewrite : Str → Str) (fragment : Str)
    (engine : Str → Str → Str) (s : PipelineState) :
    ((transformStage engine s).source = s.source ∧
      (transformStage engine s).stylesheet = s.stylesheet) ∧
    ((sanitizeStage cssRewrite s).source = s.source ∧
      (sanitizeStage cssRewrite s).stylesheet = s.stylesheet ∧
      (sanitizeStage cssRewrite s).markups
        = s.markups ++ [cssRewrite (currentMarkup s)]) ∧
    ((decorateStage fragment s).source = s.source ∧
      (decorateStage fragment s).stylesheet = s.stylesheet ∧
      (decorateStage fragment s).markups
        = s.markups ++ [inject (currentMarkup s) fragment]) ∧
    s.markups <+: (sanitizeStage cssRewrite s).markups ∧
    s.markups <+: (decorateStage fragment s).markups :=
  ⟨⟨rfl, rfl⟩, ⟨rfl, rfl, rfl⟩, ⟨rfl, rfl, rfl⟩,
    List.prefix_append s.markups _, List.prefix_append s.markups _⟩

/-! ## Claim C10: the Renderer Adapter's success condition -/

/-- Everything a backend invocation reports: the bytes it wrote to the
output path (possibly a partial file), its reported error count, an
exception it threw (if any), whether the written output is a structurally
valid PDF, and its human-readable message. -/
structure BackendReport where
  outputBytes : Str
  errorCount : Nat
  thrown : Option Str
  validOutput : Bool
  message : Str

/-- RenderResult (spec section 3): either a PDF byte stream or a
renderer-reported failure; never both, by construction of the sum. -/
inductive RenderResult where
  | pdf (bytes : Str)
  | renderError (message : Str)

/-- Modelled from the spec: the repository's source file is prose only, so
the Renderer Adapter (`render`, spec section 4.5) is modelled from the
specification: every backend-level error signal — a thrown exception, a
non-zero reported error count, or invalid output — is reported uniformly
as a RenderError carrying the backend's message; the PDF byte stream is
reported only when the backend reports zero errors. -/
def render (b : BackendReport) : RenderResult :=
  match b.thrown with
  | some m => RenderResult.renderError m
  | none =>
    if b.errorCount ≠ 0 then RenderResult.renderError b.message
    else if !b.validOutput then RenderResult.renderError b.message
    else RenderResult.pdf b.outputBytes

/-- Claim C10: a render invocation reports success exactly when the
backend reports zero errors (no exception, zero error count, valid
output); the result is a sum, never both a PDF and a failure; every
backend error signal becomes a RenderError carrying the backend's
message; and partial output bytes written on failure are never reported
as success. -/
theorem c10_render_success_iff_zero_errors (b : BackendReport) :
    ((∃ bytes, render b = RenderResult.pdf bytes) ↔
      (b.errorCount = 0 ∧ b.thrown = none ∧ b.validOutput = true)) ∧
    (∀ bytes msg, ¬(render b = RenderResult.pdf bytes ∧
      render b = RenderResult.renderError msg)) ∧
    (∀ m, b.thrown = some m → render b = RenderResult.renderError m) ∧
    (b.thrown = none → b.errorCount ≠ 0 →
      render b = RenderResult.renderError b.message) ∧
    (b.thrown = none → b.validOutput = false →
      render b = RenderResult.renderError b.message) ∧
    (b.errorCount ≠ 0 → ∀ bytes, render b ≠ RenderResult.pdf bytes) := by
  obtain ⟨bytes, errs, thr, valid, msg⟩ := b
  refine ⟨?_, ?_, ?_, ?_, ?_, ?_⟩
  · cases thr with
    | some m => simp [render]
    | none =>
      cases valid <;> by_cases he : errs = 0 <;> simp [render, he]
  · intro bs ms h
    obtain ⟨h1, h2⟩ := h
    rw [h1] at h2
    exact RenderResult.noConfusion h2
  · intro m hm
    cases hm
    simp [render]
  · intro ht he
    cases ht
    simp [render, he]
  · intro ht hv
    cases ht
    cases hv
    by_cases he : errs = 0 <;> simp [render, he]
  · intro he bs
    cases thr with
    | some m => simp [render]
    | none => simp [render, he]

/-- A backend run that reported two errors while still writing partial
output bytes. -/
def demoReport : BackendReport :=
  BackendReport.mk (("%P").data) 2 none true (("boom").data)

/-- Concrete instance of Claim C10: a backend reporting two errors with
partial output bytes written is reported as a RenderError carrying the
backend's message, never as success. -/
theorem c10_render_success_iff_zero_errors_witness :
    render demoReport = RenderResult.renderError (("boom").data) ∧
    (∀ bytes, render demoReport ≠ RenderResult.pdf bytes) :=
  ⟨(c10_render_success_iff_zero_errors demoReport).2.2.2.1 rfl (by decide),
    (c10_render_success_iff_zero_errors demoReport).2.2.2.2.2 (by decide)⟩

end Xhtml2PdfSpec
